import Mathlib

/-!
Verification of the MRChem adapter harness (qcengine/programs/mrchem.py).

This file gives a shallow embedding of the harness code and proves the
specification claims about it.  Pure data flow is translated directly;
the subprocess boundary (the `execute` call, the `popen` queries) is
modelled by passing the raw results (success flag, stdout, stderr and
the parsed content of the declared output file) as explicit inputs.
Floating-point energy values are modelled as rationals: no claim here
depends on rounding behaviour, only on which field is copied where and
on sums of named components.
-/

namespace MRChemVerify

/-- Substring test on strings, the semantics of the Python operator
`tok in text` when `text` is a string. -/
def strContains (text tok : String) : Bool :=
  decide (tok.toList <:+: text.toList)

/-- Python str.split with no argument: the maximal runs of
non-whitespace characters, in order. -/
def pySplitWs (s : String) : List String :=
  ((s.toList.foldr (fun c acc =>
      if c.isWhitespace then [] :: acc
      else
        match acc with
        | [] => [[c]]
        | t :: ts => (c :: t) :: ts) ([] : List (List Char))).filter
    (fun t => t ≠ [])).map (fun t => String.mk t)

/-- The expression stdout.split()[-1] used by both subprocess queries:
the last whitespace-delimited token of the captured output. -/
def lastToken (s : String) : String :=
  (pySplitWs s).getLastD ""

/-- The QCSchema driver enumeration as far as the harness observes it:
the two branches it handles plus the other drivers the schema allows. -/
inductive Driver where
  | energy
  | properties
  | gradient
  | hessian
deriving DecidableEq

/-- Rendering of a driver in the RuntimeError message of line 166. -/
def driverName : Driver → String
  | .energy => "energy"
  | .properties => "properties"
  | .gradient => "gradient"
  | .hessian => "hessian"

/-- Values stored in the properties mapping of the output document:
counts, scalar energies, vectors. -/
inductive PVal where
  | cnt (n : Nat)
  | num (q : ℚ)
  | vec (v : List ℚ)
deriving DecidableEq

/-- The orbital_energies block of the MRChem JSON output: per-orbital
occupations and spin labels (the label alphabet is p, a, b). -/
structure OrbitalEnergies where
  occupation : List ℚ
  spin : List String
deriving DecidableEq

/-- The scf_energy block of the MRChem JSON output. -/
structure ScfEnergy where
  E_tot : ℚ
  E_kin : ℚ
  E_en : ℚ
  E_next : ℚ
  E_eext : ℚ
  E_ee : ℚ
  E_x : ℚ
  E_xc : ℚ
  E_nn : ℚ
deriving DecidableEq

/-- The provenance record of the MRChem JSON output; `memory` is the
field the harness overwrites from the task configuration. -/
structure Provenance where
  creator : String
  version : String
  memory : ℚ
deriving DecidableEq

/-- The parsed output section of data.json, json.loads(...)["output"],
restricted to the fields the harness reads.  scf_cycles stands for
len(output["scf_calculation"]["scf_solver"]["cycles"]) and dip1_vector
for output["properties"]["dipole_moment"]["dip-1"]["vector"]. -/
structure MRChemOutput where
  success : Bool
  occupation : List ℚ
  spin : List String
  scf_energy : ScfEnergy
  dip1_vector : List ℚ
  scf_cycles : Nat
  provenance : Provenance
deriving DecidableEq

/-- The raw result of the supervised `execute` call: success flag,
captured stdout and stderr, and the parsed content of the declared
output file data.json.  The `output` field is only read on the
success branch of compute, mirroring the source. -/
structure ExecResult where
  success : Bool
  stdout : String
  stderr : String
  output : MRChemOutput
deriving DecidableEq

/-- The error record the harness stores into output_data on a failed
execution (lines 173 to 176). -/
structure ErrorRecord where
  error_message : String
  error_type : String
deriving DecidableEq

/-- The output_data dictionary of compute, with its optional fields
absent until assigned.  schema_name and schema_version are fixed at
construction (lines 107 to 114); properties starts empty. -/
structure OutputData where
  schema_name : String
  schema_version : Nat
  stdout : Option String
  stderr : Option String
  success : Option Bool
  driver : Option Driver
  properties : List (String × PVal)
  return_result : Option PVal
  error : Option ErrorRecord
  provenance : Option Provenance
deriving DecidableEq

/-- The initial output_data of lines 107 to 114. -/
def initOutputData : OutputData :=
  { schema_name := "qcschema_output"
    schema_version := 1
    stdout := none
    stderr := none
    success := none
    driver := none
    properties := []
    return_result := none
    error := none
    provenance := none }

/-- How a compute invocation ends: a returned AtomicResult, one of the
harness exceptions RandomError and UnknownError, the RuntimeError of
the unsupported-driver branch, or the TypeError the Python runtime
raises when the classification branch evaluates a membership test
against a None error_message. -/
inductive ComputeOutcome where
  | result (r : OutputData)
  | randomError (msg : String)
  | unknownError (msg : String)
  | runtimeError (msg : String)
  | typeError
deriving DecidableEq

/-- Observable record of one compute invocation: its outcome, the final
state of the output_data dictionary (which exists even when compute
subsequently raises), whether the native JSON output was parsed during
the run, and, when the failure-classification branch of lines 179 to
184 was reached, the value of the local error_message variable it
inspected. -/
structure ComputeTrace where
  outcome : ComputeOutcome
  outputData : OutputData
  nativeParsed : Bool
  branchInspected : Option (Option String)
deriving DecidableEq

/-- Counter lookup occs[lab]: the number of exact occurrences of a spin
label in the per-orbital label sequence. -/
def countLabel (spin : List String) (lab : String) : Nat :=
  (spin.filter (fun s => s = lab)).length

/-- Python round(x, 3) applied to the memory budget (line 187).  The
tie-breaking convention is irrelevant to every claim; rounding half
away from zero stands in for the float rounding. -/
def round3 (q : ℚ) : ℚ :=
  (round (q * 1000) : ℤ) / 1000

/-- The properties dictionary built on the success branch, lines 138 to
157 of compute; natom is len(input_model.molecule.masses). -/
def mkProperties (m : MRChemOutput) (natom : Nat) : List (String × PVal) :=
  [ ("calcinfo_nmo", PVal.cnt m.occupation.length),
    ("calcinfo_nalpha", PVal.cnt (countLabel m.spin "p" + countLabel m.spin "a")),
    ("calcinfo_nbeta", PVal.cnt (countLabel m.spin "p" + countLabel m.spin "b")),
    ("calcinfo_natom", PVal.cnt natom),
    ("return_energy", PVal.num m.scf_energy.E_tot),
    ("scf_one_electron_energy",
      PVal.num (m.scf_energy.E_kin + m.scf_energy.E_en + m.scf_energy.E_next + m.scf_energy.E_eext)),
    ("scf_two_electron_energy",
      PVal.num (m.scf_energy.E_ee + m.scf_energy.E_x + m.scf_energy.E_xc)),
    ("nuclear_repulsion_energy", PVal.num m.scf_energy.E_nn),
    ("scf_xc_energy", PVal.num m.scf_energy.E_xc),
    ("scf_total_energy", PVal.num m.scf_energy.E_tot),
    ("scf_iterations", PVal.cnt m.scf_cycles) ]

/-- The failure-classification branch of lines 179 to 184, applied to
the value held by the local error_message variable.  In Python, a
membership test tok in None raises TypeError, so a None message makes
the branch raise TypeError before any substring is examined; with a
string message the branch raises RandomError on a crash signature and
UnknownError otherwise. -/
def pyClassify (error_message : Option String) : ComputeOutcome :=
  match error_message with
  | none => ComputeOutcome.typeError
  | some msg =>
      if strContains msg "SIGSEV" || strContains msg "SIGSEGV" ||
          strContains msg "segmentation fault" then
        ComputeOutcome.randomError msg
      else
        ComputeOutcome.unknownError msg

/-- Lines 169 and 179 to 189 of compute: compute_success is the native
success flag; when it is false the classification branch runs on the
local error_message, otherwise provenance is copied from the native
output with its memory field overwritten and the result returned. -/
def computeFinish (m : MRChemOutput) (od : OutputData) (memory : ℚ)
    (error_message : Option String) : ComputeTrace :=
  if m.success then
    let od1 := { od with provenance := some { m.provenance with memory := round3 memory } }
    { outcome := ComputeOutcome.result od1
      outputData := od1
      nativeParsed := true
      branchInspected := none }
  else
    { outcome := pyClassify error_message
      outputData := od
      nativeParsed := true
      branchInspected := some error_message }

/-- The compute method from line 101 onward, after build_input: the
local error_message is initialised to None (line 102) and never
reassigned; on a successful execute call the native JSON is parsed,
properties are filled, return_result is dispatched on the driver
(raising RuntimeError on any driver other than energy and properties),
and the native success flag decides between returning and the
classification branch; on a failed execute call output_data receives
the stderr-based error record and the classification branch runs. -/
def compute (driver : Driver) (natom : Nat) (memory : ℚ) (exec : ExecResult) : ComputeTrace :=
  let error_message : Option String := none
  if exec.success then
    let m := exec.output
    let od1 := { initOutputData with
                  stdout := some exec.stdout
                  success := some m.success
                  driver := some driver }
    let props := mkProperties m natom
    match driver with
    | Driver.energy =>
        computeFinish m
          { od1 with properties := props
                     return_result := some (PVal.num m.scf_energy.E_tot) }
          memory error_message
    | Driver.properties =>
        computeFinish m
          { od1 with properties := props ++ [("scf_dipole_moment", PVal.vec m.dip1_vector)]
                     return_result := some (PVal.vec m.dip1_vector) }
          memory error_message
    | d =>
        { outcome := ComputeOutcome.runtimeError
            ("MRChem cannot run with " ++ driverName d ++ " driver")
          outputData := { od1 with properties := props }
          nativeParsed := true
          branchInspected := none }
  else
    { outcome := pyClassify error_message
      outputData := { initOutputData with
                       stderr := some exec.stderr
                       error := some { error_message := exec.stderr
                                       error_type := "execution_error" } }
      nativeParsed := false
      branchInspected := some error_message }

/-- State observable by get_version: the class-level version_cache
dictionary together with a count of the version-query subprocesses
spawned so far. -/
structure VersionState where
  cache : List (String × String)
  subprocCalls : Nat
deriving DecidableEq

/-- The get_version method, lines 79 to 90.  which_prog is the resolved
path of the mrchem.x executable; versionStdout is the stdout the query
subprocess would produce for that path (fixed within a process, since
the installed executable does not change); sv models the external
qcelemental safe_version parser applied to the last token.  When the
path is not yet cached the query runs, its parsed last token is stored,
and the cached entry is returned. -/
def get_version (sv : String → String) (versionStdout : String)
    (which_prog : String) (st : VersionState) : String × VersionState :=
  if (st.cache.lookup which_prog).isSome then
    ((st.cache.lookup which_prog).getD "", st)
  else
    let v := sv (lastToken versionStdout)
    let st1 : VersionState :=
      { cache := (which_prog, v) :: st.cache, subprocCalls := st.subprocCalls + 1 }
    ((st1.cache.lookup which_prog).getD "", st1)

/-- Lines 192 to 194 of build_input as their effect on the process-wide
interpreter search path: the module-path query runs and the last token
of its stdout is appended to sys.path.  Nothing in build_input removes
the entry afterwards. -/
def buildInputSysPath (sysPath : List String) (moduleQueryStdout : String) : List String :=
  sysPath ++ [lastToken moduleQueryStdout]

/-- One atom of the molecule record produced by from_schema: element
symbol, ghost flag (real is False), Cartesian coordinates. -/
structure Atom where
  elem : String
  ghost : Bool
  x : ℚ
  y : ℚ
  z : ℚ
deriving DecidableEq, Inhabited

/-- Modelled from the spec: the external qcelemental _atoms_formatter
called at line 211 with atom_format set to the bare element symbol and
ghost_format set to the at-sign-prefixed element symbol.  Per the spec
it emits one line per atom, the element symbol (ghost-marker-prefixed
for ghost atoms) followed by the three Cartesian coordinates rendered
at fixed field width and precision; the numeric rendering is the
opaque parameter fmtCoord. -/
def atomsFormatter (fmtCoord : ℚ → String) (atoms : List Atom) : List String :=
  atoms.map (fun a =>
    (if a.ghost then "@" ++ a.elem else a.elem) ++
      fmtCoord a.x ++ fmtCoord a.y ++ fmtCoord a.z)

/-- Line 216: the coords entry of the Molecule block is the newline
join of the formatted atom lines. -/
def moleculeCoords (fmtCoord : ℚ → String) (atoms : List Atom) : String :=
  String.intercalate "\n" (atomsFormatter fmtCoord atoms)

/-! Concrete fixtures used to instantiate the theorems. -/

/-- A closed-shell water-like SCF energy breakdown with total energy -76. -/
def sampleScfEnergy : ScfEnergy :=
  { E_tot := -76, E_kin := 75, E_en := -190, E_next := 0, E_eext := 0,
    E_ee := 46, E_x := 0, E_xc := -9, E_nn := 2 }

/-- A provenance record as MRChem would emit it. -/
def sampleProvenance : Provenance :=
  { creator := "MRChem", version := "1.1.0", memory := 0 }

/-- A successful native output document. -/
def sampleOutput : MRChemOutput :=
  { success := true
    occupation := [2, 2, 2, 2, 2]
    spin := ["p", "p", "p", "p", "p"]
    scf_energy := sampleScfEnergy
    dip1_vector := [0, 0, 1]
    scf_cycles := 7
    provenance := sampleProvenance }

/-- An open-shell native output document: two paired orbitals, one
alpha-only, one beta-only, one more alpha-only. -/
def openShellOutput : MRChemOutput :=
  { sampleOutput with
    occupation := [2, 2, 1, 1, 1]
    spin := ["p", "p", "a", "b", "a"] }

/-- A successful supervised execution carrying sampleOutput. -/
def sampleExecOk : ExecResult :=
  { success := true, stdout := "mrchem stdout", stderr := "", output := sampleOutput }

/-- A failed supervised execution whose stderr reports a crash. -/
def sampleExecFail : ExecResult :=
  { success := false, stdout := "", stderr := "segmentation fault", output := sampleOutput }

/-- A successful supervised execution whose native output reports
failure, with a crash signature on stderr. -/
def sampleExecNativeFail : ExecResult :=
  { success := true, stdout := "", stderr := "segmentation fault",
    output := { sampleOutput with success := false } }

/-- A two-atom molecule: one real hydrogen and one ghost helium. -/
def wAtoms : List Atom :=
  [ { elem := "H", ghost := false, x := 0, y := 0, z := 0 },
    { elem := "He", ghost := true, x := 1, y := 0, z := 0 } ]

/-! Claim theorems. -/

/-- C1: the claim states that a reported failure is classified from the
failure text into RandomError on a crash signature and UnknownError
otherwise.  The code instead raises TypeError on every failure path,
because the local error_message variable it inspects is still None:
evaluated here on the two failure modes of the claim, a failed
supervised execution with stderr containing a crash signature, and a
native success flag of false with the same stderr.  Neither produces
RandomError or UnknownError. -/
theorem C1_failure_paths_raise_typeError :
    (compute Driver.energy 3 1 sampleExecFail).outcome = ComputeOutcome.typeError ∧
    (compute Driver.energy 3 1 sampleExecNativeFail).outcome = ComputeOutcome.typeError ∧
    ∀ msg, (compute Driver.energy 3 1 sampleExecFail).outcome ≠ ComputeOutcome.randomError msg :=
  ⟨rfl, rfl, fun _ h => ComputeOutcome.noConfusion h⟩

/-- C2: on every path of compute that reaches the failure-classification
branch, the local error_message variable inspected by that branch still
holds its initial None value; the captured stderr is never assigned to
it before the substring tests run. -/
theorem C2_error_message_still_none (driver : Driver) (natom : Nat) (memory : ℚ)
    (exec : ExecResult) (v : Option String)
    (h : (compute driver natom memory exec).branchInspected = some v) :
    v = none := by
  by_cases hs : exec.success
  · cases driver <;>
      by_cases hm : exec.output.success <;>
        simp_all [compute, computeFinish]
  · simp_all [compute]

/-- Witness for C2: the classification branch is reached on a failed
execution and the inspected value is None. -/
theorem C2_witness :
    (compute Driver.energy 3 1 sampleExecFail).branchInspected = some none ∧
    (none : Option String) = none :=
  ⟨rfl, C2_error_message_still_none Driver.energy 3 1 sampleExecFail none rfl⟩

/-- C3: for every raw execution result whose success flag is false, the
normalization step stores into the output document an error record of
kind execution_error whose message equals the captured stderr, and the
properties mapping stays empty. -/
theorem C3_exec_failure_error_record (driver : Driver) (natom : Nat) (memory : ℚ)
    (exec : ExecResult) (h : exec.success = false) :
    (compute driver natom memory exec).outputData.error =
      some { error_message := exec.stderr, error_type := "execution_error" } ∧
    (compute driver natom memory exec).outputData.properties = [] := by
  simp [compute, h, initOutputData]

/-- Witness for C3: a concrete failed execution whose stderr lands in
the error record while the properties mapping is empty. -/
theorem C3_witness :
    sampleExecFail.success = false ∧
    ((compute Driver.energy 3 1 sampleExecFail).outputData.error =
        some { error_message := sampleExecFail.stderr, error_type := "execution_error" } ∧
      (compute Driver.energy 3 1 sampleExecFail).outputData.properties = []) :=
  ⟨rfl, C3_exec_failure_error_record Driver.energy 3 1 sampleExecFail rfl⟩

/-- C4: every output document actually returned by compute is fully
successful: no error record, a non-empty properties mapping and a
present return_result; in particular no returned result mixes success
and failure fields.  Failure paths raise instead of returning, so the
disjunction of the claim holds with the left disjunct on every returned
result. -/
theorem C4_no_hybrid_result (driver : Driver) (natom : Nat) (memory : ℚ)
    (exec : ExecResult) (r : OutputData)
    (h : (compute driver natom memory exec).outcome = ComputeOutcome.result r) :
    (r.error = none ∧ r.properties ≠ [] ∧ r.return_result.isSome = true) ∨
    (r.error.isSome = true ∧ r.properties = []) := by
  left
  by_cases hs : exec.success
  · cases driver <;>
      by_cases hm : exec.output.success <;>
        simp_all [compute, computeFinish, pyClassify, initOutputData, mkProperties] <;>
        (subst h; simp)
  · simp_all [compute, pyClassify]

/-- Witness for C4: a concrete successful run returns a fully
successful document. -/
theorem C4_witness :
    (compute Driver.energy 3 1 sampleExecOk).outcome =
      ComputeOutcome.result (compute Driver.energy 3 1 sampleExecOk).outputData ∧
    (((compute Driver.energy 3 1 sampleExecOk).outputData.error = none ∧
      (compute Driver.energy 3 1 sampleExecOk).outputData.properties ≠ [] ∧
      (compute Driver.energy 3 1 sampleExecOk).outputData.return_result.isSome = true) ∨
    ((compute Driver.energy 3 1 sampleExecOk).outputData.error.isSome = true ∧
      (compute Driver.energy 3 1 sampleExecOk).outputData.properties = [])) :=
  ⟨rfl, C4_no_hybrid_result Driver.energy 3 1 sampleExecOk _ rfl⟩

/-- C5 counterexample: with driver gradient and a successful supervised
execution, compute does fail with the unsupported-driver error naming
the driver, but only AFTER the native output has been parsed and the
properties mapping populated from it, so the claim that the failure
happens before output parsing is false at this input. -/
theorem C5_counterexample :
    (compute Driver.gradient 3 1 sampleExecOk).outcome =
      ComputeOutcome.runtimeError "MRChem cannot run with gradient driver" ∧
    ¬ (compute Driver.gradient 3 1 sampleExecOk).nativeParsed = false ∧
    (compute Driver.gradient 3 1 sampleExecOk).outputData.properties ≠ [] := by
  refine ⟨rfl, by decide, by decide⟩

/-- C5 amended: for every job whose driver is neither energy nor
properties and whose supervised execution succeeds, compute fails with
the unsupported-driver RuntimeError naming the offending driver, and
the failure is raised after the native output has been parsed. -/
theorem C5_unsupported_driver (driver : Driver) (natom : Nat) (memory : ℚ)
    (exec : ExecResult) (hs : exec.success = true)
    (h1 : driver ≠ Driver.energy) (h2 : driver ≠ Driver.properties) :
    (compute driver natom memory exec).outcome =
      ComputeOutcome.runtimeError
        ("MRChem cannot run with " ++ driverName driver ++ " driver") ∧
    (compute driver natom memory exec).nativeParsed = true := by
  cases driver <;> simp_all [compute, driverName]

/-- Witness for C5: driver hessian with a successful execution. -/
theorem C5_witness :
    sampleExecOk.success = true ∧
    ((compute Driver.hessian 3 1 sampleExecOk).outcome =
        ComputeOutcome.runtimeError
          ("MRChem cannot run with " ++ driverName Driver.hessian ++ " driver") ∧
      (compute Driver.hessian 3 1 sampleExecOk).nativeParsed = true) :=
  ⟨rfl, C5_unsupported_driver Driver.hessian 3 1 sampleExecOk rfl
    (by decide) (by decide)⟩

/-- C6: for every energy job whose execution succeeds and whose native
output reports success with total energy E, the returned document has
return_result E and properties entries scf_total_energy and
return_energy both equal to E. -/
theorem C6_energy_round_trip (natom : Nat) (memory : ℚ) (exec : ExecResult)
    (hs : exec.success = true) (hm : exec.output.success = true) :
    ∃ r, (compute Driver.energy natom memory exec).outcome = ComputeOutcome.result r ∧
      r.return_result = some (PVal.num exec.output.scf_energy.E_tot) ∧
      r.properties.lookup "scf_total_energy" = some (PVal.num exec.output.scf_energy.E_tot) ∧
      r.properties.lookup "return_energy" = some (PVal.num exec.output.scf_energy.E_tot) := by
  simp only [compute, computeFinish, hs, hm, if_true, mkProperties]
  exact ⟨_, rfl, rfl, rfl, rfl⟩

/-- Witness for C6: the sample successful run with E_tot equal to -76
yields return_result -76 and scf_total_energy -76. -/
theorem C6_witness :
    sampleExecOk.success = true ∧ sampleExecOk.output.success = true ∧
    ∃ r, (compute Driver.energy 3 1 sampleExecOk).outcome = ComputeOutcome.result r ∧
      r.return_result = some (PVal.num (-76)) ∧
      r.properties.lookup "scf_total_energy" = some (PVal.num (-76)) ∧
      r.properties.lookup "return_energy" = some (PVal.num (-76)) :=
  ⟨rfl, rfl, C6_energy_round_trip 3 1 sampleExecOk rfl rfl⟩

/-- C7: for every native output, the normalized electron counts are the
tallies of the per-orbital spin labels: calcinfo_nalpha is the number
of paired labels plus the number of alpha-only labels, calcinfo_nbeta
the number of paired plus beta-only labels, and calcinfo_nmo the length
of the occupation sequence; this holds on the returned document for
both supported drivers. -/
theorem C7_electron_counts (driver : Driver) (natom : Nat) (memory : ℚ)
    (exec : ExecResult) (hs : exec.success = true) (hm : exec.output.success = true)
    (hd : driver = Driver.energy ∨ driver = Driver.properties) :
    ∃ r, (compute driver natom memory exec).outcome = ComputeOutcome.result r ∧
      r.properties.lookup "calcinfo_nalpha" =
        some (PVal.cnt (countLabel exec.output.spin "p" + countLabel exec.output.spin "a")) ∧
      r.properties.lookup "calcinfo_nbeta" =
        some (PVal.cnt (countLabel exec.output.spin "p" + countLabel exec.output.spin "b")) ∧
      r.properties.lookup "calcinfo_nmo" =
        some (PVal.cnt exec.output.occupation.length) := by
  rcases hd with hd | hd <;> subst hd <;>
    simp only [compute, computeFinish, hs, hm, if_true, mkProperties] <;>
    exact ⟨_, rfl, rfl, rfl, rfl⟩

/-- Witness for C7: the open-shell sample with two paired, two
alpha-only and one beta-only label gives nalpha 4, nbeta 3 and nmo 5. -/
theorem C7_witness :
    ({ sampleExecOk with output := openShellOutput } : ExecResult).success = true ∧
    ({ sampleExecOk with output := openShellOutput } : ExecResult).output.success = true ∧
    ∃ r, (compute Driver.properties 3 1 { sampleExecOk with output := openShellOutput }).outcome =
        ComputeOutcome.result r ∧
      r.properties.lookup "calcinfo_nalpha" = some (PVal.cnt (2 + 2)) ∧
      r.properties.lookup "calcinfo_nbeta" = some (PVal.cnt (2 + 1)) ∧
      r.properties.lookup "calcinfo_nmo" = some (PVal.cnt 5) :=
  ⟨rfl, rfl,
    C7_electron_counts Driver.properties 3 1 { sampleExecOk with output := openShellOutput }
      rfl rfl (Or.inr rfl)⟩

/-- C8: starting from a state where the resolved path is not cached,
the first get_version call spawns exactly one version-query subprocess
and stores the parsed last whitespace-delimited token of its output in
the cache under that path, and the second call returns the same string
with no further subprocess and no state change. -/
theorem C8_version_query_cached (sv : String → String) (versionStdout : String)
    (which_prog : String) (st : VersionState)
    (hfresh : st.cache.lookup which_prog = none) :
    (get_version sv versionStdout which_prog st).1 = sv (lastToken versionStdout) ∧
    (get_version sv versionStdout which_prog st).2.cache.lookup which_prog =
      some (sv (lastToken versionStdout)) ∧
    (get_version sv versionStdout which_prog st).2.subprocCalls = st.subprocCalls + 1 ∧
    get_version sv versionStdout which_prog (get_version sv versionStdout which_prog st).2 =
      ((get_version sv versionStdout which_prog st).1,
        (get_version sv versionStdout which_prog st).2) := by
  simp [get_version, hfresh, List.lookup]

/-- A version-cache state with an empty cache and no subprocess calls
recorded. -/
def emptyVersionState : VersionState :=
  { cache := [], subprocCalls := 0 }

/-- Witness for C8: a concrete fresh cache, executable path and query
output; the parsed token of "MRChem version 1.1.1" is "1.1.1". -/
theorem C8_witness :
    emptyVersionState.cache.lookup "/usr/bin/mrchem.x" = none ∧
    ((get_version (fun s => s) "MRChem version 1.1.1" "/usr/bin/mrchem.x"
        emptyVersionState).1 = "1.1.1" ∧
      (get_version (fun s => s) "MRChem version 1.1.1" "/usr/bin/mrchem.x"
          emptyVersionState).2.cache.lookup "/usr/bin/mrchem.x" = some "1.1.1" ∧
      (get_version (fun s => s) "MRChem version 1.1.1" "/usr/bin/mrchem.x"
          emptyVersionState).2.subprocCalls = emptyVersionState.subprocCalls + 1 ∧
      get_version (fun s => s) "MRChem version 1.1.1" "/usr/bin/mrchem.x"
          (get_version (fun s => s) "MRChem version 1.1.1" "/usr/bin/mrchem.x"
            emptyVersionState).2 =
        ((get_version (fun s => s) "MRChem version 1.1.1" "/usr/bin/mrchem.x"
            emptyVersionState).1,
          (get_version (fun s => s) "MRChem version 1.1.1" "/usr/bin/mrchem.x"
            emptyVersionState).2)) :=
  ⟨rfl, C8_version_query_cached (fun s => s) "MRChem version 1.1.1" "/usr/bin/mrchem.x"
    emptyVersionState rfl⟩

/-- Helper for C9: a filter and its negation split the length of a
list. -/
theorem length_filter_ghost_split (atoms : List Atom) :
    (atoms.filter (fun a => !a.ghost)).length + (atoms.filter (fun a => a.ghost)).length =
      atoms.length := by
  induction atoms with
  | nil => rfl
  | cons a t ih =>
      by_cases hg : a.ghost <;> simp [hg, List.filter] <;> omega

/-- C9: the translated coordinate block has exactly one line per atom,
so its line count is the number of real atoms plus the number of ghost
atoms, and the line of each ghost atom begins with the marker-prefixed
element symbol while the line of each real atom begins with the bare
element symbol. -/
theorem C9_coordinate_block (fmtCoord : ℚ → String) (atoms : List Atom) :
    (atomsFormatter fmtCoord atoms).length =
      (atoms.filter (fun a => !a.ghost)).length +
        (atoms.filter (fun a => a.ghost)).length ∧
    ∀ i, i < atoms.length →
      (((atoms.getD i default).ghost = true →
        ("@" ++ (atoms.getD i default).elem).toList <+:
          ((atomsFormatter fmtCoord atoms).getD i "").toList) ∧
      ((atoms.getD i default).ghost = false →
        ((atoms.getD i default).elem).toList <+:
          ((atomsFormatter fmtCoord atoms).getD i "").toList)) := by
  constructor
  · rw [atomsFormatter, List.length_map, length_filter_ghost_split]
  · intro i hi
    have hline : (atomsFormatter fmtCoord atoms).getD i "" =
        (if (atoms.getD i default).ghost then "@" ++ (atoms.getD i default).elem
          else (atoms.getD i default).elem) ++
          fmtCoord (atoms.getD i default).x ++ fmtCoord (atoms.getD i default).y ++
          fmtCoord (atoms.getD i default).z := by
      rw [atomsFormatter]
      rw [List.getD_eq_getElem?_getD, List.getD_eq_getElem?_getD,
        List.getElem?_map, List.getElem?_eq_getElem hi]
      rfl
    have pre : ∀ p q r s : String, p.toList <+: (p ++ q ++ r ++ s).toList :=
      fun p q r s =>
        ⟨q.toList ++ r.toList ++ s.toList, by
          simp [String.toList, String.data_append, List.append_assoc]⟩
    constructor <;> intro hg
    · rw [hline, if_pos hg]
      exact pre _ _ _ _
    · have hg2 : ¬ (atoms.getD i default).ghost = true := by
        rw [hg]
        exact Bool.false_ne_true
      rw [hline, if_neg hg2]
      exact pre _ _ _ _

/-- Witness for C9: one real hydrogen and one ghost helium give two
lines, the second carrying the ghost marker. -/
theorem C9_witness :
    (atomsFormatter (fun _ => " 0.0") wAtoms).length =
      ((wAtoms.filter (fun a => !a.ghost)).length +
        (wAtoms.filter (fun a => a.ghost)).length) ∧
    (1 < wAtoms.length) ∧
    ("@" ++ "He").toList <+: ((atomsFormatter (fun _ => " 0.0") wAtoms).getD 1 "").toList := by
  refine ⟨(C9_coordinate_block (fun _ => " 0.0") wAtoms).1, by decide, ?_⟩
  have h := ((C9_coordinate_block (fun _ => " 0.0") wAtoms).2 1 (by decide)).1
  exact h rfl

/-- C10: each build_input call appends the module path reported by the
driver executable (the last token of the module query output) to the
process-global sys.path list: the list grows by exactly one entry, the
previous entries stay in place as a prefix, the appended entry is the
reported module path, and a sequence of n calls grows the list by n
entries. -/
theorem C10_sys_path_append (sysPath : List String) (stdout1 : String) :
    (buildInputSysPath sysPath stdout1).length = sysPath.length + 1 ∧
    sysPath <+: buildInputSysPath sysPath stdout1 ∧
    (buildInputSysPath sysPath stdout1).getLastD "" = lastToken stdout1 ∧
    ∀ outs : List String,
      (outs.foldl buildInputSysPath sysPath).length = sysPath.length + outs.length := by
  refine ⟨by simp [buildInputSysPath], ⟨[lastToken stdout1], rfl⟩,
    by simp [buildInputSysPath], ?_⟩
  intro outs
  induction outs generalizing sysPath with
  | nil => simp
  | cons o t ih =>
      simp only [List.foldl_cons, List.length_cons, ih, buildInputSysPath]
      simp
      omega

end MRChemVerify
